import Mathlib

/-!
Shallow embedding of the amq-autopause background script (the event-stream
connection manager): the `connectSSE` gating and connection logic, the
`onopen`/`onerror` transport handlers, the reconnect timer, the message
handlers (`CONNECT_SSE`, `DISCONNECT_SSE`, `GET_SSE_STATUS`), the storage
change listener, the pause event listener with its reward-id filter, and the
`sendPauseToAMQ` delivery fan-out.

JavaScript optional values (`undefined`) are modelled with `Option`; the
JavaScript truthiness tests used by the source (`!storage.sseEnabled`,
`!storage.configuredRewardId`, `!storage.twitchSession?.user?.id`,
`if (tab.id)`) are modelled with explicit truthiness functions, so that an
empty string and the number 0 are falsy exactly as in the source.
-/

namespace AmqAutopause

/-- Truthiness of an optional string, as tested by `!x` in the source:
`undefined` and the empty string are falsy. -/
def truthyStr : Option String → Bool
  | none => false
  | some s => !s.isEmpty

/-- Truthiness of an optional boolean, as tested by `!x` in the source:
`undefined` and `false` are falsy. -/
def truthyBool : Option Bool → Bool
  | none => false
  | some b => b

/-- Truthiness of an optional number, as tested by `if (tab.id)` in the
source: `undefined` and `0` are falsy. -/
def truthyNat : Option Nat → Bool
  | none => false
  | some n => n != 0

/-- The storage snapshot read by `connectSSE`: the keys
`configuredRewardId`, `sseEnabled` and `twitchSession` (of which only
`twitchSession?.user?.id` is inspected). Absent keys are `none`. -/
structure StorageData where
  configuredRewardId : Option String
  sseEnabled : Option Bool
  twitchSessionUserId : Option String
  deriving DecidableEq, Repr

/-- The `readyState` of an `EventSource`. -/
inductive ReadyState
  | connecting
  | opened
  | closed
  deriving DecidableEq, Repr

/-- A constructed `EventSource`. `esId` is a fresh identity per construction,
so that replacing the connection is observable in the model. -/
structure EventSourceM where
  esId : Nat
  readyState : ReadyState
  deriving DecidableEq, Repr

/-- The mutable background-script state: the `eventSource` variable, the
`reconnectAttempts` counter, the number of outstanding `setTimeout`
reconnect callbacks, and a counter supplying fresh `EventSource`
identities. -/
structure BGState where
  eventSource : Option EventSourceM
  reconnectAttempts : Nat
  pendingTimers : Nat
  nextId : Nat
  deriving DecidableEq, Repr

/-- The state at script start: `eventSource = null`, `reconnectAttempts = 0`,
no timers outstanding. -/
def initBG : BGState := ⟨none, 0, 0, 0⟩

/-- Source constant `MAX_RECONNECT_ATTEMPTS = 10`. -/
def MAX_RECONNECT_ATTEMPTS : Nat := 10

/-- Source constant `RECONNECT_DELAY = 5000` milliseconds. -/
def RECONNECT_DELAY : Nat := 5000

/-- The `connectSSE` function. It reads the storage snapshot and returns
early (before touching any state) when `sseEnabled` is falsy, when
`configuredRewardId` is falsy, or when `twitchSession?.user?.id` is falsy.
Otherwise it closes the existing connection if any and constructs a new
`EventSource` (state CONNECTING). `reconnectAttempts` and the pending
timers are not modified by `connectSSE` itself. -/
def connectSSE (storage : StorageData) (st : BGState) : BGState :=
  if !truthyBool storage.sseEnabled then st
  else if !truthyStr storage.configuredRewardId then st
  else if !truthyStr storage.twitchSessionUserId then st
  else
    { eventSource := some { esId := st.nextId, readyState := ReadyState.connecting }
      reconnectAttempts := st.reconnectAttempts
      pendingTimers := st.pendingTimers
      nextId := st.nextId + 1 }

/-- The `eventSource.onopen` handler: the transport reaches OPEN and the
handler body sets `reconnectAttempts = 0`. -/
def onOpen (st : BGState) : BGState :=
  { st with
    eventSource := st.eventSource.map fun es => { es with readyState := ReadyState.opened }
    reconnectAttempts := 0 }

/-- The `eventSource.onerror` handler: it closes and clears the source, then,
if `reconnectAttempts < maxAttempts`, increments `reconnectAttempts` and
schedules `setTimeout(connectSSE, RECONNECT_DELAY)`; otherwise it gives up
(logging only). -/
def onError (maxAttempts : Nat) (st : BGState) : BGState :=
  if st.reconnectAttempts < maxAttempts then
    ⟨none, st.reconnectAttempts + 1, st.pendingTimers + 1, st.nextId⟩
  else
    ⟨none, st.reconnectAttempts, st.pendingTimers, st.nextId⟩

/-- An outstanding reconnect timer fires: it is consumed and `connectSSE`
runs against the storage snapshot current at firing time. A no-op when no
timer is outstanding. -/
def timerFire (storage : StorageData) (st : BGState) : BGState :=
  if st.pendingTimers = 0 then st
  else connectSSE storage { st with pendingTimers := st.pendingTimers - 1 }

/-- The `DISCONNECT_SSE` message handler: if a source exists it is closed and
cleared; nothing else is touched (in particular no `clearTimeout` and no
reset of `reconnectAttempts` appears anywhere in the source). -/
def handleDisconnect (st : BGState) : BGState :=
  match st.eventSource with
  | some _ => { st with eventSource := none }
  | none => st

/-- The `GET_SSE_STATUS` response shape. -/
structure SSEStatus where
  connected : Bool
  reconnectAttempts : Nat
  deriving DecidableEq, Repr

/-- The `GET_SSE_STATUS` message handler:
`connected = (eventSource !== null && eventSource.readyState === OPEN)`. -/
def getSSEStatus (st : BGState) : SSEStatus :=
  { connected :=
      match st.eventSource with
      | some es => es.readyState == ReadyState.opened
      | none => false
    reconnectAttempts := st.reconnectAttempts }

/-- The change set delivered to the `browser.storage.onChanged` listener:
whether the `sseEnabled` and `configuredRewardId` keys changed. -/
structure StorageChanges where
  sseEnabledChanged : Bool
  configuredRewardIdChanged : Bool
  deriving DecidableEq, Repr

/-- The `browser.storage.onChanged` listener: in the `local` area, any change
to `sseEnabled` or `configuredRewardId` calls `connectSSE`; otherwise
nothing happens. -/
def onStorageChanged (areaIsLocal : Bool) (changes : StorageChanges)
    (storage : StorageData) (st : BGState) : BGState :=
  if areaIsLocal && (changes.sseEnabledChanged || changes.configuredRewardIdChanged) then
    connectSSE storage st
  else st

/-- The external and transport events that drive the background state.
`connectCmd` is the `CONNECT_SSE` message (or the startup call); transport
events carry the storage snapshot read when their handler runs. -/
inductive BGEvent
  | connectCmd (storage : StorageData)
  | disconnectCmd
  | openFired
  | errorFired
  | timerFired (storage : StorageData)
  | storageChanged (changes : StorageChanges) (storage : StorageData)
  deriving DecidableEq, Repr

/-- One step of the background script. Transport callbacks (`openFired`,
`errorFired`) can only be delivered by a live `EventSource`, so they are
no-ops when `eventSource` is `null` (a closed source fires no events). -/
def stepBG (maxAttempts : Nat) (st : BGState) : BGEvent → BGState
  | BGEvent.connectCmd storage => connectSSE storage st
  | BGEvent.disconnectCmd => handleDisconnect st
  | BGEvent.openFired => if st.eventSource.isSome then onOpen st else st
  | BGEvent.errorFired => if st.eventSource.isSome then onError maxAttempts st else st
  | BGEvent.timerFired storage => timerFire storage st
  | BGEvent.storageChanged changes storage => onStorageChanged true changes storage st

/-- Run a sequence of events from a state. -/
def runBG (maxAttempts : Nat) : BGState → List BGEvent → BGState
  | st, [] => st
  | st, e :: es => runBG maxAttempts (stepBG maxAttempts st e) es

/-- Events that are an external (re)start trigger: the `CONNECT_SSE` command
and a configuration change. Everything else is automatic. -/
def isExternalStart : BGEvent → Bool
  | BGEvent.connectCmd _ => true
  | BGEvent.storageChanged _ _ => true
  | _ => false

/-- The parsed payload of a `pause` event. The source declares
`rewardId : string`, but `JSON.parse` is unchecked, so the field may be
absent at runtime; hence `Option`. The other payload fields are never
inspected by the filter. -/
structure PauseEventData where
  rewardId : Option String
  deriving DecidableEq, Repr

/-- A tab returned by `browser.tabs.query`; `tab.id` may be absent. -/
structure TabInfo where
  tabId : Option Nat
  deriving DecidableEq, Repr

/-- The observable outcome of one `browser.tabs.sendMessage` attempt:
which tab was addressed and whether the attempt succeeded (`ok = false`
models the rejection caught and logged by the per-tab `catch`). -/
structure DeliveryRecord where
  tab : Nat
  ok : Bool
  deriving DecidableEq, Repr

/-- The `sendPauseToAMQ` function: query the AMQ tabs, return if none; then
loop over the tabs in order, skipping tabs with a falsy `id`, attempting one
`sendMessage` per remaining tab. Each attempt is wrapped in its own
`try/catch`, so a failure is recorded and the loop continues. The outcome of
the attempt at tab `i` is given by the oracle `send i`. -/
def sendPauseToAMQ (tabs : List TabInfo) (send : Nat → Bool) : List DeliveryRecord :=
  if tabs.isEmpty then []
  else
    tabs.filterMap fun tab =>
      match tab.tabId with
      | some i => if i != 0 then some { tab := i, ok := send i } else none
      | none => none

/-- The tabs that the delivery loop actually addresses: those whose `id` is
present and truthy, in query order. -/
def truthyTabIds (tabs : List TabInfo) : List Nat :=
  tabs.filterMap fun tab =>
    match tab.tabId with
    | some i => if i != 0 then some i else none
    | none => none

/-- Outcome of one run of the `pause` event listener. `threw` models the
listener aborting with an uncaught exception (the `JSON.parse` call is not
wrapped in any `try`, so a parse failure rejects the async listener). -/
inductive HandlerOutcome
  | threw
  | noMatch
  | delivered (log : List DeliveryRecord)
  deriving DecidableEq, Repr

/-- The `pause` event listener: parse the payload (an unparseable payload
throws), re-read `configuredRewardId` from storage, return without delivery
when `currentStorage.configuredRewardId !== data.rewardId` (strict equality,
with `undefined` equal only to `undefined`), otherwise call
`sendPauseToAMQ`. The listener body never assigns `eventSource` or
`reconnectAttempts`, so the background state is returned unchanged on every
path. -/
def onPauseEvent (st : BGState) (parsed : Option PauseEventData)
    (currentConfiguredRewardId : Option String)
    (tabs : List TabInfo) (send : Nat → Bool) : HandlerOutcome × BGState :=
  match parsed with
  | none => (HandlerOutcome.threw, st)
  | some data =>
    if currentConfiguredRewardId ≠ data.rewardId then (HandlerOutcome.noMatch, st)
    else (HandlerOutcome.delivered (sendPauseToAMQ tabs send), st)

/-- A storage snapshot passing all three gates. -/
def goodStorage : StorageData :=
  { configuredRewardId := some "RWD-1"
    sseEnabled := some true
    twitchSessionUserId := some "user1" }

/-- A storage snapshot with SSE disabled but the other keys present. -/
def disabledStorage : StorageData :=
  { configuredRewardId := some "RWD-1"
    sseEnabled := some false
    twitchSessionUserId := some "user1" }

/-- A state with a live connection in the CONNECTING stage. -/
def connState : BGState := ⟨some ⟨0, ReadyState.connecting⟩, 7, 0, 1⟩

/-- A reconnecting-phase state: no live source, one reconnect timer
outstanding, one failure counted. -/
def reconState : BGState := ⟨none, 1, 1, 5⟩

/-- Helper: `connectSSE` returns before touching any state when any of the
three gates is falsy. -/
theorem connectSSE_noop (storage : StorageData) (st : BGState)
    (h : truthyBool storage.sseEnabled = false ∨
         truthyStr storage.configuredRewardId = false ∨
         truthyStr storage.twitchSessionUserId = false) :
    connectSSE storage st = st := by
  unfold connectSSE
  rcases h with h | h | h <;> simp [h]

/-- Helper: when all three gates pass, `connectSSE` closes any existing
source and constructs a fresh `EventSource` in CONNECTING state. -/
theorem connectSSE_accepted (storage : StorageData) (st : BGState)
    (hE : truthyBool storage.sseEnabled = true)
    (hR : truthyStr storage.configuredRewardId = true)
    (hS : truthyStr storage.twitchSessionUserId = true) :
    connectSSE storage st =
      { eventSource := some { esId := st.nextId, readyState := ReadyState.connecting }
        reconnectAttempts := st.reconnectAttempts
        pendingTimers := st.pendingTimers
        nextId := st.nextId + 1 } := by
  unfold connectSSE
  simp [hE, hR, hS]

/-- C1: when `sseEnabled` is falsy, or the credential
(`twitchSession?.user?.id`) is falsy, or `configuredRewardId` is falsy
(absent or the empty string), issuing Start (the `CONNECT_SSE` command or
the startup call to `connectSSE`) leaves the background state completely
unchanged: no `EventSource` is constructed (the fresh-id counter does not
advance) and an idle state remains idle. -/
theorem start_refused_when_gated (maxAttempts : Nat) (storage : StorageData) (st : BGState)
    (h : truthyBool storage.sseEnabled = false ∨
         truthyStr storage.configuredRewardId = false ∨
         truthyStr storage.twitchSessionUserId = false) :
    connectSSE storage st = st ∧
    stepBG maxAttempts st (BGEvent.connectCmd storage) = st :=
  ⟨connectSSE_noop storage st h, connectSSE_noop storage st h⟩

/-- Witness for C1 at a concrete disabled configuration and the idle start
state. -/
theorem start_refused_when_gated_witness :
    truthyBool disabledStorage.sseEnabled = false ∧
    (connectSSE disabledStorage initBG = initBG ∧
     stepBG MAX_RECONNECT_ATTEMPTS initBG (BGEvent.connectCmd disabledStorage) = initBG) :=
  ⟨by decide,
   start_refused_when_gated MAX_RECONNECT_ATTEMPTS disabledStorage initBG (Or.inl (by decide))⟩

/-- C8: every transition into Open (the `onopen` callback, which only a live
source can fire) resets `reconnectAttempts` to 0 regardless of the value
accumulated before, and a subsequent transport failure then counts from
zero (the next failure yields `reconnectAttempts = 1`). -/
theorem open_resets_retry (st : BGState) (h : st.eventSource.isSome = true) :
    (stepBG MAX_RECONNECT_ATTEMPTS st BGEvent.openFired).reconnectAttempts = 0 ∧
    (stepBG MAX_RECONNECT_ATTEMPTS (stepBG MAX_RECONNECT_ATTEMPTS st BGEvent.openFired)
        BGEvent.errorFired).reconnectAttempts = 1 := by
  obtain ⟨es, hes⟩ := Option.isSome_iff_exists.mp h
  simp [stepBG, hes, onOpen, onError, MAX_RECONNECT_ATTEMPTS]

/-- Witness for C8 at a concrete connecting state with 7 accumulated
failures. -/
theorem open_resets_retry_witness :
    connState.eventSource.isSome = true ∧
    ((stepBG MAX_RECONNECT_ATTEMPTS connState BGEvent.openFired).reconnectAttempts = 0 ∧
     (stepBG MAX_RECONNECT_ATTEMPTS (stepBG MAX_RECONNECT_ATTEMPTS connState BGEvent.openFired)
        BGEvent.errorFired).reconnectAttempts = 1) :=
  ⟨by decide, open_resets_retry connState (by decide)⟩

/-- C4 counterexample: from the reconnecting state (no live source, one
scheduled reconnect, one counted failure), the `DISCONNECT_SSE` command is a
complete no-op: the pending reconnect stays scheduled and later fires,
constructing a new `EventSource` (an automatic connection attempt after
Stop), and `reconnectAttempts` stays 1, not 0. -/
theorem stop_does_not_cancel_reconnect_cex :
    stepBG MAX_RECONNECT_ATTEMPTS reconState BGEvent.disconnectCmd = reconState ∧
    (stepBG MAX_RECONNECT_ATTEMPTS
        (stepBG MAX_RECONNECT_ATTEMPTS reconState BGEvent.disconnectCmd)
        (BGEvent.timerFired goodStorage)).eventSource =
      some ⟨5, ReadyState.connecting⟩ ∧
    (stepBG MAX_RECONNECT_ATTEMPTS reconState BGEvent.disconnectCmd).reconnectAttempts = 1 := by
  decide

/-- C4 amended: the `DISCONNECT_SSE` handler closes and clears the live
source when one exists, but it neither cancels a pending scheduled reconnect
(no `clearTimeout` exists in the script) nor resets `reconnectAttempts`;
both are left exactly as they were. -/
theorem disconnect_retains_timers_and_attempts (maxAttempts : Nat) (st : BGState) :
    (stepBG maxAttempts st BGEvent.disconnectCmd).eventSource = none ∧
    (stepBG maxAttempts st BGEvent.disconnectCmd).pendingTimers = st.pendingTimers ∧
    (stepBG maxAttempts st BGEvent.disconnectCmd).reconnectAttempts = st.reconnectAttempts := by
  cases h : st.eventSource <;> simp [stepBG, handleDisconnect, h]

/-- C9 counterexample: at a concrete unparseable payload the `pause`
listener does not complete normally: it aborts with the uncaught
`JSON.parse` exception (outcome `threw`), although the background state is
left unchanged. -/
theorem malformed_event_cex :
    (onPauseEvent initBG none (some "RWD-1") [] fun _ => true).1 = HandlerOutcome.threw ∧
    (onPauseEvent initBG none (some "RWD-1") [] fun _ => true).2 = initBG := by
  decide

/-- C9 amended: an unparseable payload makes the `pause` listener abort with
the `JSON.parse` exception (an unhandled rejection of the async listener)
instead of completing normally; no delivery is attempted, the connection is
not torn down, and the connection state and retry counter are unchanged. -/
theorem malformed_event_throws_state_unchanged (st : BGState) (cfg : Option String)
    (tabs : List TabInfo) (send : Nat → Bool) :
    onPauseEvent st none cfg tabs send = (HandlerOutcome.threw, st) := rfl

/-- A state with an open connection, 3 counted failures and one scheduled
reconnect. -/
def openState3 : BGState := ⟨some ⟨0, ReadyState.opened⟩, 3, 1, 1⟩

/-- C3 counterexample: with a live open connection, 3 counted failures and a
scheduled reconnect, a storage change that sets `sseEnabled` to `false`
leaves everything as it was: the transport is still open (not torn down, so
the state is not idle), the scheduled reconnect is still pending, and the
retry counter still reads 3. -/
theorem disable_does_not_teardown_cex :
    (stepBG MAX_RECONNECT_ATTEMPTS openState3
        (BGEvent.storageChanged ⟨true, false⟩ disabledStorage)).eventSource =
      some ⟨0, ReadyState.opened⟩ ∧
    (stepBG MAX_RECONNECT_ATTEMPTS openState3
        (BGEvent.storageChanged ⟨true, false⟩ disabledStorage)).pendingTimers = 1 ∧
    (stepBG MAX_RECONNECT_ATTEMPTS openState3
        (BGEvent.storageChanged ⟨true, false⟩ disabledStorage)).reconnectAttempts = 3 := by
  decide

/-- C3 amended: when the configuration transitions to `enabled = false`, the
storage change listener calls `connectSSE`, which refuses before touching
any state, so the whole transition is a no-op: no new connection is opened,
but equally a live transport is not torn down, a pending scheduled reconnect
is not cancelled, and the retry budget is not reset (teardown on disable
happens only through the separate `DISCONNECT_SSE` command sent by the
popup). -/
theorem disable_change_is_noop (maxAttempts : Nat) (st : BGState)
    (changes : StorageChanges) (storage : StorageData)
    (h : truthyBool storage.sseEnabled = false) :
    stepBG maxAttempts st (BGEvent.storageChanged changes storage) = st := by
  simp only [stepBG, onStorageChanged]
  split
  · exact connectSSE_noop storage st (Or.inl h)
  · rfl

/-- Witness for the amended C3 at the concrete open state and disabled
snapshot. -/
theorem disable_change_is_noop_witness :
    truthyBool disabledStorage.sseEnabled = false ∧
    stepBG MAX_RECONNECT_ATTEMPTS openState3
      (BGEvent.storageChanged ⟨true, false⟩ disabledStorage) = openState3 :=
  ⟨by decide,
   disable_change_is_noop MAX_RECONNECT_ATTEMPTS openState3 ⟨true, false⟩ disabledStorage
     (by decide)⟩

/-- A state whose connection (identity 7) is open, with fresh-id counter 8. -/
def openState5 : BGState := ⟨some ⟨7, ReadyState.opened⟩, 0, 0, 8⟩

/-- A storage snapshot whose reward id was just changed to `RWD-2`, with the
other keys unchanged and truthy. -/
def storageRWD2 : StorageData :=
  { configuredRewardId := some "RWD-2"
    sseEnabled := some true
    twitchSessionUserId := some "user1" }

/-- C5 counterexample: with connection 7 open, a storage change touching
only `configuredRewardId` (with `enabled` and the credential unchanged and
truthy) replaces the transport: afterwards the connection is the freshly
constructed source 8 in CONNECTING state, not the previously open source
7 — the open transport was not retained. -/
theorem filter_change_cex :
    (stepBG MAX_RECONNECT_ATTEMPTS openState5
        (BGEvent.storageChanged ⟨false, true⟩ storageRWD2)).eventSource =
      some ⟨8, ReadyState.connecting⟩ ∧
    (stepBG MAX_RECONNECT_ATTEMPTS openState5
        (BGEvent.storageChanged ⟨false, true⟩ storageRWD2)).eventSource ≠
      some ⟨7, ReadyState.opened⟩ := by
  decide

/-- C5 amended: a configuration change that modifies only
`configuredRewardId` (leaving the gating keys truthy) does trigger a
reconnect: the storage change listener calls `connectSSE`, which closes the
existing open transport and constructs a fresh `EventSource`; the previous
transport is not retained. -/
theorem filter_change_reconnects (maxAttempts : Nat) (st : BGState) (es : EventSourceM)
    (changes : StorageChanges) (storage : StorageData)
    (hes : st.eventSource = some es)
    (hfresh : es.esId < st.nextId)
    (hch : changes.configuredRewardIdChanged = true)
    (hE : truthyBool storage.sseEnabled = true)
    (hR : truthyStr storage.configuredRewardId = true)
    (hS : truthyStr storage.twitchSessionUserId = true) :
    (stepBG maxAttempts st (BGEvent.storageChanged changes storage)).eventSource =
      some { esId := st.nextId, readyState := ReadyState.connecting } ∧
    (stepBG maxAttempts st (BGEvent.storageChanged changes storage)).eventSource ≠
      st.eventSource ∧
    (stepBG maxAttempts st (BGEvent.storageChanged changes storage)).nextId = st.nextId + 1 := by
  have hstep : stepBG maxAttempts st (BGEvent.storageChanged changes storage) =
      connectSSE storage st := by
    simp [stepBG, onStorageChanged, hch]
  rw [hstep, connectSSE_accepted storage st hE hR hS]
  refine ⟨rfl, ?_, rfl⟩
  rw [hes]
  intro hcontra
  have h2 : ({ esId := st.nextId, readyState := ReadyState.connecting } : EventSourceM).esId =
      es.esId := by
    rw [Option.some.injEq] at hcontra
    exact congrArg EventSourceM.esId hcontra
  simp at h2
  omega

/-- Witness for the amended C5 at the concrete open state 7 and the changed
reward id. -/
theorem filter_change_reconnects_witness :
    (stepBG MAX_RECONNECT_ATTEMPTS openState5
        (BGEvent.storageChanged ⟨false, true⟩ storageRWD2)).eventSource =
      some { esId := 8, readyState := ReadyState.connecting } ∧
    (stepBG MAX_RECONNECT_ATTEMPTS openState5
        (BGEvent.storageChanged ⟨false, true⟩ storageRWD2)).eventSource ≠
      openState5.eventSource ∧
    (stepBG MAX_RECONNECT_ATTEMPTS openState5
        (BGEvent.storageChanged ⟨false, true⟩ storageRWD2)).nextId = 8 + 1 :=
  filter_change_reconnects MAX_RECONNECT_ATTEMPTS openState5 ⟨7, ReadyState.opened⟩
    ⟨false, true⟩ storageRWD2 rfl (by decide) rfl (by decide) (by decide) (by decide)

/-- C6 counterexample: with the configured reward id equal to the empty
string and an event whose `rewardId` field holds the empty string, the
strict-equality filter matches and one delivery attempt occurs; likewise
when both the field and the configured key are absent. The claim that an
absent field or an empty configured filter is always a no-match with zero
delivery attempts is therefore false. -/
theorem empty_filter_matches_cex :
    (onPauseEvent initBG (some ⟨some ""⟩) (some "") [⟨some 1⟩] fun _ => true).1 =
      HandlerOutcome.delivered [⟨1, true⟩] ∧
    (onPauseEvent initBG (some ⟨none⟩) none [⟨some 1⟩] fun _ => true).1 =
      HandlerOutcome.delivered [⟨1, true⟩] := by
  decide

/-- C6 amended: an inbound pause event matches (and delivery is attempted)
if and only if the current `configuredRewardId` value is equal to the
payload `rewardId` value under strict equality, where an absent storage key
and an absent payload field are equal to each other; in particular an absent
field matches an absent configuration, and an empty-string field matches an
empty-string configuration, and in those cases delivery is attempted. -/
theorem pause_match_iff (st : BGState) (data : PauseEventData) (cfg : Option String)
    (tabs : List TabInfo) (send : Nat → Bool) :
    (onPauseEvent st (some data) cfg tabs send).1 =
      HandlerOutcome.delivered (sendPauseToAMQ tabs send) ↔ cfg = data.rewardId := by
  by_cases h : cfg = data.rewardId <;> simp [onPauseEvent, h]

/-- Helper: the delivery loop addresses exactly the truthy tab ids, in
order, recording the oracle outcome for each. -/
theorem deliveryLoop_eq (tabs : List TabInfo) (send : Nat → Bool) :
    (tabs.filterMap fun tab =>
        match tab.tabId with
        | some i => if i != 0 then some { tab := i, ok := send i } else none
        | none => none) =
      (truthyTabIds tabs).map fun j => ({ tab := j, ok := send j } : DeliveryRecord) := by
  induction tabs with
  | nil => rfl
  | cons tab rest ih =>
    simp only [truthyTabIds, List.filterMap_cons] at ih ⊢
    cases htab : tab.tabId with
    | none =>
      simp only [htab]
      simpa using ih
    | some i =>
      cases h0 : (i != 0) <;>
        · simp [htab, h0]
          simpa using ih

/-- Helper: `sendPauseToAMQ` in closed form. -/
theorem sendPauseToAMQ_eq (tabs : List TabInfo) (send : Nat → Bool) :
    sendPauseToAMQ tabs send =
      (truthyTabIds tabs).map fun j => { tab := j, ok := send j } := by
  unfold sendPauseToAMQ
  split
  · next h =>
    have hnil : tabs = [] := by simpa using h
    subst hnil
    rfl
  · exact deliveryLoop_eq tabs send

/-- C7: for a matched event delivered to the queried tabs with the outcome
of the attempt at tab `i` failing, delivery is nevertheless attempted at
every addressable tab, exactly once each and in query order, and each
attempt records its own outcome `send j` independently of the failure; the
function always returns normally (each attempt has its own catch), so no
per-target failure is retried or surfaced to the upstream connection. -/
theorem delivery_isolated (tabs : List TabInfo) (send : Nat → Bool) (i : Nat)
    (hfail : send i = false) :
    sendPauseToAMQ tabs send =
      (truthyTabIds tabs).map fun j => { tab := j, ok := send j } :=
  sendPauseToAMQ_eq tabs send

/-- The delivery outcome oracle used by the C7 witness: the attempt at tab 1
fails, every other attempt succeeds. -/
def send0 : Nat → Bool := fun j => j != 1

/-- Witness for C7: three queried tabs (one without an id), with the attempt
at tab 1 failing; both remaining addressable tabs are still attempted with
their own outcomes. -/
theorem delivery_isolated_witness :
    send0 1 = false ∧
    sendPauseToAMQ [⟨some 1⟩, ⟨some 2⟩, ⟨none⟩] send0 =
      (truthyTabIds [⟨some 1⟩, ⟨some 2⟩, ⟨none⟩]).map fun j => { tab := j, ok := send0 j } :=
  ⟨by decide, delivery_isolated [⟨some 1⟩, ⟨some 2⟩, ⟨none⟩] send0 1 (by decide)⟩

/-- Iterated failure cycles: each cycle is one transport failure on the live
source followed by the scheduled reconnect timer firing. -/
def consecFailures (maxAttempts : Nat) (storage : StorageData) (st : BGState) : Nat → BGState
  | 0 => st
  | Nat.succ k =>
    consecFailures maxAttempts storage
      (stepBG maxAttempts (stepBG maxAttempts st BGEvent.errorFired)
        (BGEvent.timerFired storage)) k

/-- Helper: `connectSSE` never changes the retry counter or the pending
timers. -/
theorem connectSSE_preserves (storage : StorageData) (st : BGState) :
    (connectSSE storage st).reconnectAttempts = st.reconnectAttempts ∧
    (connectSSE storage st).pendingTimers = st.pendingTimers := by
  unfold connectSSE
  repeat' split
  all_goals exact ⟨rfl, rfl⟩

/-- Helper: `onError` within the budget increments the counter and schedules
a reconnect. -/
theorem onError_within (maxAttempts : Nat) (st : BGState)
    (h : st.reconnectAttempts < maxAttempts) :
    onError maxAttempts st =
      ⟨none, st.reconnectAttempts + 1, st.pendingTimers + 1, st.nextId⟩ := by
  unfold onError
  split
  · rfl
  · next hc => exact absurd h hc

/-- Helper: `onError` at an exhausted budget only clears the source. -/
theorem onError_exhausted (maxAttempts : Nat) (st : BGState)
    (h : ¬ st.reconnectAttempts < maxAttempts) :
    onError maxAttempts st = ⟨none, st.reconnectAttempts, st.pendingTimers, st.nextId⟩ := by
  unfold onError
  split
  · next hc => exact absurd hc h
  · rfl

/-- Helper: a transport error on a live source runs the `onerror` handler. -/
theorem stepBG_error_some (maxAttempts : Nat) (st : BGState) (es : EventSourceM)
    (hes : st.eventSource = some es) :
    stepBG maxAttempts st BGEvent.errorFired = onError maxAttempts st := by
  show (if st.eventSource.isSome then onError maxAttempts st else st) = _
  rw [hes]
  rfl

/-- Helper: a timer fire with a timer outstanding consumes it and runs
`connectSSE`. -/
theorem timerFire_pos (storage : StorageData) (st : BGState)
    (h : ¬ st.pendingTimers = 0) :
    timerFire storage st =
      connectSSE storage
        ⟨st.eventSource, st.reconnectAttempts, st.pendingTimers - 1, st.nextId⟩ := by
  unfold timerFire
  split
  · next hc => exact absurd hc h
  · rfl

/-- Helper: as long as the gates pass and failures keep arriving within the
budget, each failure cycle increments the counter by one, consumes its
timer, and leaves a fresh live source. -/
theorem consecFailures_spec (maxAttempts : Nat) (storage : StorageData)
    (hE : truthyBool storage.sseEnabled = true)
    (hR : truthyStr storage.configuredRewardId = true)
    (hS : truthyStr storage.twitchSessionUserId = true) :
    ∀ (k a n : Nat) (es : EventSourceM), a + k ≤ maxAttempts →
      ∃ es2 : EventSourceM,
        consecFailures maxAttempts storage ⟨some es, a, 0, n⟩ k =
          ⟨some es2, a + k, 0, n + k⟩ := by
  intro k
  induction k with
  | zero => exact fun a n es _ => ⟨es, rfl⟩
  | succ k ih =>
    intro a n es h
    have hlt : a < maxAttempts := by omega
    have h1 : stepBG maxAttempts ⟨some es, a, 0, n⟩ BGEvent.errorFired =
        ⟨none, a + 1, 1, n⟩ :=
      (stepBG_error_some maxAttempts _ es rfl).trans (onError_within maxAttempts _ hlt)
    have h2 : stepBG maxAttempts (⟨none, a + 1, 1, n⟩ : BGState) (BGEvent.timerFired storage) =
        ⟨some ⟨n, ReadyState.connecting⟩, a + 1, 0, n + 1⟩ :=
      (timerFire_pos storage _ (by exact Nat.one_ne_zero)).trans
        (connectSSE_accepted storage _ hE hR hS)
    obtain ⟨es2, heq⟩ := ih (a + 1) (n + 1) ⟨n, ReadyState.connecting⟩ (by omega)
    have harith1 : a + 1 + k = a + (k + 1) := by omega
    have harith2 : n + 1 + k = n + (k + 1) := by omega
    rw [harith1, harith2] at heq
    refine ⟨es2, ?_⟩
    show consecFailures maxAttempts storage
        (stepBG maxAttempts (stepBG maxAttempts ⟨some es, a, 0, n⟩ BGEvent.errorFired)
          (BGEvent.timerFired storage)) k =
      ⟨some es2, a + (k + 1), 0, n + (k + 1)⟩
    rw [h1, h2, heq]

/-- Helper: from a dead state (no live source, no outstanding timer), any
event that is not an external start trigger changes nothing. -/
theorem stepBG_dead (maxAttempts : Nat) (st : BGState) (e : BGEvent)
    (h1 : st.eventSource = none) (h2 : st.pendingTimers = 0)
    (hext : isExternalStart e = false) :
    stepBG maxAttempts st e = st := by
  cases e with
  | connectCmd storage => simp [isExternalStart] at hext
  | storageChanged changes storage => simp [isExternalStart] at hext
  | disconnectCmd => simp [stepBG, handleDisconnect, h1]
  | openFired => simp [stepBG, h1]
  | errorFired => simp [stepBG, h1]
  | timerFired storage => simp [stepBG, timerFire, h2]

/-- Helper: a dead state stays dead under any sequence of non-external
events. -/
theorem runBG_dead (maxAttempts : Nat) :
    ∀ (events : List BGEvent) (st : BGState),
      st.eventSource = none → st.pendingTimers = 0 →
      (∀ e ∈ events, isExternalStart e = false) →
      runBG maxAttempts st events = st := by
  intro events
  induction events with
  | nil => exact fun st _ _ _ => rfl
  | cons e es ih =>
    intro st h1 h2 hev
    show runBG maxAttempts (stepBG maxAttempts st e) es = st
    rw [stepBG_dead maxAttempts st e h1 h2 (hev e (List.mem_cons_self e es))]
    exact ih st h1 h2 fun x hx => hev x (List.mem_cons_of_mem e hx)

/-- C2 counterexample: with max = 2 and a passing configuration, the run
connect, fail, reconnect, fail (two consecutive transport failures with no
intervening open) reports `{connected := false, retryAttempts := 2}` as the
claim says, but the state is not terminal: a reconnect is still scheduled
(`pendingTimers = 1`) and when it fires, a third connection attempt is
constructed automatically, without any external Start. -/
theorem third_attempt_occurs_cex :
    getSSEStatus (stepBG 2 (stepBG 2 (stepBG 2 (connectSSE goodStorage initBG)
        BGEvent.errorFired) (BGEvent.timerFired goodStorage)) BGEvent.errorFired) =
      ⟨false, 2⟩ ∧
    (stepBG 2 (stepBG 2 (stepBG 2 (connectSSE goodStorage initBG)
        BGEvent.errorFired) (BGEvent.timerFired goodStorage)) BGEvent.errorFired).pendingTimers
      = 1 ∧
    (stepBG 2 (stepBG 2 (stepBG 2 (stepBG 2 (connectSSE goodStorage initBG)
        BGEvent.errorFired) (BGEvent.timerFired goodStorage)) BGEvent.errorFired)
        (BGEvent.timerFired goodStorage)).eventSource =
      some ⟨2, ReadyState.connecting⟩ := by
  decide

/-- C2 amended: the guard `reconnectAttempts < maxAttempts` is tested before
the increment, so the connector gives up only after `maxAttempts + 1`
consecutive transport failures (the initial attempt plus `maxAttempts`
scheduled reconnects). A full run from a fresh Start shows it: after
`maxAttempts` failure cycles the counter reads `maxAttempts` and a live
attempt still exists; the next (final) failure leaves the dead state with no
source, no scheduled reconnect and `reconnectAttempts = maxAttempts`, and
from there no sequence of automatic events (transport callbacks, timer
fires, stop commands) ever creates a connection or a timer again — recovery
requires an external `CONNECT_SSE` or configuration change. -/
theorem retries_exhaust_after_max_plus_one (maxAttempts : Nat) (storage : StorageData)
    (hE : truthyBool storage.sseEnabled = true)
    (hR : truthyStr storage.configuredRewardId = true)
    (hS : truthyStr storage.twitchSessionUserId = true) :
    (consecFailures maxAttempts storage (connectSSE storage initBG)
        maxAttempts).reconnectAttempts = maxAttempts ∧
    (consecFailures maxAttempts storage (connectSSE storage initBG)
        maxAttempts).eventSource.isSome = true ∧
    stepBG maxAttempts
        (consecFailures maxAttempts storage (connectSSE storage initBG) maxAttempts)
        BGEvent.errorFired =
      ⟨none, maxAttempts, 0, maxAttempts + 1⟩ ∧
    (∀ events : List BGEvent, (∀ e ∈ events, isExternalStart e = false) →
      (runBG maxAttempts (⟨none, maxAttempts, 0, maxAttempts + 1⟩ : BGState)
          events).eventSource = none ∧
      (runBG maxAttempts (⟨none, maxAttempts, 0, maxAttempts + 1⟩ : BGState)
          events).pendingTimers = 0) := by
  have hs0 : connectSSE storage initBG =
      ⟨some ⟨0, ReadyState.connecting⟩, 0, 0, 1⟩ :=
    connectSSE_accepted storage initBG hE hR hS
  obtain ⟨es2, heq⟩ :=
    consecFailures_spec maxAttempts storage hE hR hS maxAttempts 0 1
      ⟨0, ReadyState.connecting⟩ (by omega)
  rw [Nat.zero_add, Nat.add_comm 1 maxAttempts] at heq
  rw [hs0, heq]
  refine ⟨rfl, rfl, ?_, ?_⟩
  · exact (stepBG_error_some maxAttempts _ es2 rfl).trans
      (onError_exhausted maxAttempts _ (by exact Nat.lt_irrefl maxAttempts))
  · intro events hev
    rw [runBG_dead maxAttempts events ⟨none, maxAttempts, 0, maxAttempts + 1⟩ rfl rfl hev]
    exact ⟨rfl, rfl⟩

/-- Witness for the amended C2 at max = 2 and the passing configuration:
after the two failure cycles the counter reads 2, the third failure leaves
the dead state, and a further timer fire, transport error and stop command
leave it disconnected. -/
theorem retries_exhaust_witness :
    (consecFailures 2 goodStorage (connectSSE goodStorage initBG) 2).reconnectAttempts = 2 ∧
    stepBG 2 (consecFailures 2 goodStorage (connectSSE goodStorage initBG) 2)
        BGEvent.errorFired = ⟨none, 2, 0, 3⟩ ∧
    (runBG 2 (⟨none, 2, 0, 3⟩ : BGState)
        [BGEvent.timerFired goodStorage, BGEvent.errorFired,
         BGEvent.disconnectCmd]).eventSource = none := by
  have h := retries_exhaust_after_max_plus_one 2 goodStorage (by decide) (by decide) (by decide)
  exact ⟨h.1, h.2.2.1, (h.2.2.2 _ (by decide)).1⟩

/-- Helper: each step either preserves the retry counter, resets it to zero,
or increments it by one and only under the guard
`reconnectAttempts < maxAttempts`. -/
theorem stepBG_attempts_cases (maxAttempts : Nat) (st : BGState) (e : BGEvent) :
    (stepBG maxAttempts st e).reconnectAttempts = st.reconnectAttempts ∨
    (stepBG maxAttempts st e).reconnectAttempts = 0 ∨
    ((stepBG maxAttempts st e).reconnectAttempts = st.reconnectAttempts + 1 ∧
      st.reconnectAttempts < maxAttempts) := by
  cases e with
  | connectCmd storage => exact Or.inl (connectSSE_preserves storage st).1
  | disconnectCmd =>
    refine Or.inl ?_
    cases h : st.eventSource <;> simp [stepBG, handleDisconnect, h]
  | openFired =>
    cases h : st.eventSource with
    | none => exact Or.inl (by simp [stepBG, h])
    | some es => exact Or.inr (Or.inl (by simp [stepBG, h, onOpen]))
  | errorFired =>
    cases h : st.eventSource with
    | none => exact Or.inl (by simp [stepBG, h])
    | some es =>
      by_cases hlt : st.reconnectAttempts < maxAttempts
      · exact Or.inr (Or.inr ⟨by simp [stepBG, h, onError, hlt], hlt⟩)
      · exact Or.inl (by simp [stepBG, h, onError, hlt])
  | timerFired storage =>
    by_cases h0 : st.pendingTimers = 0
    · exact Or.inl (by simp [stepBG, timerFire, h0])
    · refine Or.inl ?_
      show (timerFire storage st).reconnectAttempts = _
      unfold timerFire
      rw [if_neg h0]
      exact (connectSSE_preserves storage _).1
  | storageChanged changes storage =>
    refine Or.inl ?_
    show (onStorageChanged true changes storage st).reconnectAttempts = _
    unfold onStorageChanged
    split
    · exact (connectSSE_preserves storage st).1
    · rfl

/-- Helper: one step preserves the retry bound. -/
theorem stepBG_attempts_le (maxAttempts : Nat) (st : BGState) (e : BGEvent)
    (h : st.reconnectAttempts ≤ maxAttempts) :
    (stepBG maxAttempts st e).reconnectAttempts ≤ maxAttempts := by
  rcases stepBG_attempts_cases maxAttempts st e with hc | hc | ⟨hc, hlt⟩ <;> omega

/-- Helper: the retry bound is preserved along every run. -/
theorem runBG_attempts_le (maxAttempts : Nat) :
    ∀ (events : List BGEvent) (st : BGState), st.reconnectAttempts ≤ maxAttempts →
      (runBG maxAttempts st events).reconnectAttempts ≤ maxAttempts := by
  intro events
  induction events with
  | nil => exact fun st h => h
  | cons e es ih => exact fun st h => ih _ (stepBG_attempts_le maxAttempts st e h)

/-- C10: in every state reachable from script start under the default
budget, `0 ≤ reconnectAttempts ≤ MAX_RECONNECT_ATTEMPTS` (the lower bound
holds by the counter being a natural number), and each operation either
leaves the counter unchanged, resets it to 0, or increments it by one and
only under the guard `reconnectAttempts < maxAttempts`. -/
theorem retry_counter_invariant :
    (∀ events : List BGEvent,
        (runBG MAX_RECONNECT_ATTEMPTS initBG events).reconnectAttempts ≤
          MAX_RECONNECT_ATTEMPTS) ∧
    (∀ (maxAttempts : Nat) (st : BGState) (e : BGEvent),
        (stepBG maxAttempts st e).reconnectAttempts = st.reconnectAttempts ∨
        (stepBG maxAttempts st e).reconnectAttempts = 0 ∨
        ((stepBG maxAttempts st e).reconnectAttempts = st.reconnectAttempts + 1 ∧
          st.reconnectAttempts < maxAttempts)) :=
  ⟨fun events => runBG_attempts_le MAX_RECONNECT_ATTEMPTS events initBG (by decide),
   stepBG_attempts_cases⟩

end AmqAutopause
